import Mathlib

/-!
Shallow embedding of the villmas-template core: the per-tenant storage
actor (`OrganizationStorage` durable object), the authentication
middleware (`clerkAuth`, `internalAuth`), the internal-token minting
(`generateInternalToken`), and the billing reconciliation logic
(`getOrCreateStripeCustomer`, `getSubscriptionPlanType`, the usage
handler).  Definitions are translated from the TypeScript source files;
JS-specific semantics (truthiness of null and the empty string, the
`||` default operator, varargs array flattening) are modelled
explicitly.
-/

namespace Villmas

/-! ## SQL values and bind arguments -/

/-- A scalar SQLite value as stored in the `organization_settings`
columns (TEXT or INTEGER, possibly NULL).  SQL bind parameters are
scalars; a JS array passed as an individual bind parameter would be a
bind error and is represented separately by `Arg.arr`. -/
inductive SqlValue
  | s (v : String)
  | i (n : Int)
  | null
deriving DecidableEq, Repr

/-- The empty string (named so literals appear only after definitional
assignments). -/
def emptyStr : String := ""

/-- JS truthiness of a column value: `null`, the empty string and `0`
are falsy, everything else truthy.  Used to model checks such as
`!current?.creator_user_id` and `existingOrg[0].stripe_customer_id`. -/
def jsFalsy (v : SqlValue) : Bool :=
  match v with
  | .null => true
  | .s str => str == emptyStr
  | .i n => n == 0

/-- The JS `x || null` idiom on an optional string: a missing or empty
string becomes `none`. -/
def jsStrOrNull (v : Option String) : Option String :=
  match v with
  | some s => if s == emptyStr then none else some s
  | none => none

/-- The JS `x || dflt` idiom: a missing or empty string is replaced by
the default. -/
def jsOrDefault (v : Option String) (dflt : String) : String :=
  match v with
  | some s => if s == emptyStr then dflt else s
  | none => dflt

/-- One vararg passed to `query`/`exec`: either a scalar or an array of
scalars (the single-array calling convention). -/
inductive Arg
  | val (v : SqlValue)
  | arr (vs : List SqlValue)
deriving DecidableEq, Repr

/-- `params.length === 1 && Array.isArray(params[0]) ? params[0] : params`:
a lone array argument is spread into individual bind parameters. -/
def flattenArgs (params : List Arg) : List Arg :=
  match params with
  | [Arg.arr vs] => vs.map Arg.val
  | ps => ps

/-! ## The organization_settings table and the store state -/

/-- One row of `organization_settings`.  `id` is the INTEGER PRIMARY
KEY; the seed row has id 1.  `created_at` and `updated_at` default to
`unixepoch()` at insertion time. -/
structure SettingsRow where
  id : Nat
  stripe_customer_id : SqlValue
  creator_user_id : SqlValue
  creator_email : SqlValue
  created_at : SqlValue
  updated_at : SqlValue
deriving DecidableEq, Repr

/-- The default row inserted by `INSERT OR IGNORE INTO
organization_settings (id) VALUES (1)` at epoch second `now`. -/
def defaultRow (now : Nat) : SettingsRow :=
  ⟨1, .null, .null, .null, .i (now : Int), .i (now : Int)⟩

/-- The durable storage of one tenant actor: the
`organization_settings` table (`none` while the table does not exist)
plus the in-memory `initialized` flag of the `OrganizationStorage`
instance. -/
structure Store where
  settings : Option (List SettingsRow)
  initialized : Bool
deriving DecidableEq, Repr

/-- A brand-new actor: no table yet, lazy-init flag unset. -/
def freshStore : Store := ⟨none, false⟩

/-- A storage-level failure: executing a statement against a missing
table, or binding a non-scalar argument. -/
inductive Fault
  | noSuchTable
  | badBind
deriving DecidableEq, Repr

/-- The repertoire of SQL statements the repository actually executes
against a tenant store (source files `organization-storage.ts` and
`billing.ts`); the embedding interprets these statements directly. -/
inductive Stmt
  /-- `CREATE TABLE IF NOT EXISTS organization_settings (...)` -/
  | createTable
  /-- `INSERT OR IGNORE INTO organization_settings (id) VALUES (1)` -/
  | insertDefault
  /-- `SELECT stripe_customer_id FROM organization_settings WHERE id = 1` -/
  | selectCustomerId
  /-- `SELECT creator_user_id FROM organization_settings WHERE id = 1` -/
  | selectCreator
  /-- `UPDATE organization_settings SET stripe_customer_id = ? WHERE id = 1` -/
  | updateCustomerId
  /-- `UPDATE organization_settings SET creator_user_id = ?,
      creator_email = ?, updated_at = ? WHERE id = 1` -/
  | updateCreator
deriving DecidableEq, Repr

/-- `CREATE TABLE IF NOT EXISTS`: creates an empty table when absent,
no-op when present. -/
def createTableIfNotExists (st : Store) : Store :=
  { st with settings := some (st.settings.getD []) }

/-- `INSERT OR IGNORE ... (id) VALUES (1)`: appends the default row
unless a row with primary key 1 already exists. -/
def insertDefaultOrIgnore (now : Nat) (st : Store) : Store :=
  match st.settings with
  | none => st
  | some tbl =>
    if tbl.any (fun r => r.id == 1) then st
    else { st with settings := some (tbl ++ [defaultRow now]) }

/-- Interpreter for `this.sql.exec(sql, ...boundArgs)`: returns the
cursor rows (whole rows; callers project the selected column) and the
updated store.  Statements other than CREATE TABLE fail on a missing
table; a leftover array argument is a bind error. -/
def execStmtWith (now : Nat) (stmt : Stmt) (args : List Arg) (st : Store) :
    Except Fault (List SettingsRow × Store) :=
  match stmt, args with
  | .createTable, [] => .ok ([], createTableIfNotExists st)
  | .insertDefault, [] =>
    match st.settings with
    | none => .error .noSuchTable
    | some _ => .ok ([], insertDefaultOrIgnore now st)
  | .selectCustomerId, [] =>
    match st.settings with
    | none => .error .noSuchTable
    | some tbl => .ok (tbl.filter (fun r => r.id == 1), st)
  | .selectCreator, [] =>
    match st.settings with
    | none => .error .noSuchTable
    | some tbl => .ok (tbl.filter (fun r => r.id == 1), st)
  | .updateCustomerId, [Arg.val v] =>
    match st.settings with
    | none => .error .noSuchTable
    | some tbl =>
      let tbl2 := tbl.map (fun r =>
        if r.id == 1 then { r with stripe_customer_id := v } else r)
      .ok ([], { st with settings := some tbl2 })
  | .updateCreator, [Arg.val u, Arg.val e, Arg.val t] =>
    match st.settings with
    | none => .error .noSuchTable
    | some tbl =>
      let tbl2 := tbl.map (fun r =>
        if r.id == 1 then
          { r with creator_user_id := u, creator_email := e, updated_at := t }
        else r)
      .ok ([], { st with settings := some tbl2 })
  | _, _ => .error .badBind

/-- Argument shapes accepted by each statement of the repertoire. -/
def argsOk (stmt : Stmt) (args : List Arg) : Bool :=
  match stmt, args with
  | .createTable, [] => true
  | .insertDefault, [] => true
  | .selectCustomerId, [] => true
  | .selectCreator, [] => true
  | .updateCustomerId, [Arg.val _] => true
  | .updateCreator, [Arg.val _, Arg.val _, Arg.val _] => true
  | _, _ => false

/-- `ensureInitialized`: short-circuits on the in-memory flag, else
runs the idempotent CREATE TABLE IF NOT EXISTS + INSERT OR IGNORE seed
and sets the flag. -/
def ensureInitialized (now : Nat) (st : Store) : Store :=
  if st.initialized then st
  else
    { insertDefaultOrIgnore now (createTableIfNotExists st) with
        initialized := true }

/-- `query(sql, ...params)`: lazy init, flatten a lone array argument,
execute, collect cursor rows. -/
def query (now : Nat) (stmt : Stmt) (params : List Arg) (st : Store) :
    Except Fault (List SettingsRow × Store) :=
  execStmtWith now stmt (flattenArgs params) (ensureInitialized now st)

/-- `queryOne(sql, ...params)`: first row or `none` (`results[0] ?? null`). -/
def queryOne (now : Nat) (stmt : Stmt) (params : List Arg) (st : Store) :
    Except Fault (Option SettingsRow × Store) :=
  match query now stmt params st with
  | .error e => .error e
  | .ok (rows, st1) => .ok (rows.head?, st1)

/-- `exec(sql, ...params)`: same as `query` but discards result rows. -/
def exec (now : Nat) (stmt : Stmt) (params : List Arg) (st : Store) :
    Except Fault Store :=
  match execStmtWith now stmt (flattenArgs params) (ensureInitialized now st) with
  | .error e => .error e
  | .ok (_, st1) => .ok st1

/-- Exactly one row with the singleton primary key 1 exists. -/
def singletonRecord (st : Store) : Prop :=
  ∃ tbl, st.settings = some tbl ∧ tbl.countP (fun r => r.id == 1) = 1

instance (st : Store) : Decidable (singletonRecord st) := by
  unfold singletonRecord
  cases st.settings with
  | none => exact isFalse (by simp)
  | some tbl => exact decidable_of_iff (tbl.countP (fun r => r.id == 1) = 1) (by simp)

/-! ## Row projections used in theorem statements -/

/-- The singleton row (primary key 1), when present. -/
def row1 (st : Store) : Option SettingsRow :=
  match st.settings with
  | some tbl => tbl.find? (fun r => r.id == 1)
  | none => none

def creatorOf (st : Store) : SqlValue :=
  ((row1 st).map (fun r => r.creator_user_id)).getD .null

def creatorEmailOf (st : Store) : SqlValue :=
  ((row1 st).map (fun r => r.creator_email)).getD .null

def customerOf (st : Store) : SqlValue :=
  ((row1 st).map (fun r => r.stripe_customer_id)).getD .null

def updatedAtOf (st : Store) : SqlValue :=
  ((row1 st).map (fun r => r.updated_at)).getD .null

def createdAtOf (st : Store) : SqlValue :=
  ((row1 st).map (fun r => r.created_at)).getD .null

/-! ## setCreatorIfNotSet and getStorageStats -/

/-- The TEXT column value handed back to TypeScript as a string. -/
def sqlAsString (v : SqlValue) : String :=
  match v with
  | .s str => str
  | .i n => toString n
  | .null => emptyStr

/-- The SQL bind value of a JS `email || null` expression. -/
def sqlOfJsString (v : Option String) : SqlValue :=
  match jsStrOrNull v with
  | some s => .s s
  | none => .null

/-- `setCreatorIfNotSet(userId, email)`: read `creator_user_id` of the
singleton row; when it is JS-falsy, write `creator_user_id`,
`creator_email` and `updated_at` (epoch seconds of the call). -/
def setCreatorIfNotSet (now : Nat) (userId : String) (email : Option String)
    (st : Store) : Except Fault Store :=
  let st0 := ensureInitialized now st
  match queryOne now .selectCreator [] st0 with
  | .error e => .error e
  | .ok (current, st1) =>
    let cur := (current.map (fun r => r.creator_user_id)).getD .null
    if jsFalsy cur then
      exec now .updateCreator
        [Arg.val (.s userId), Arg.val (sqlOfJsString email),
         Arg.val (.i (now : Int))] st1
    else .ok st1

/-- `Math.round` on a non-negative rational: round half away from zero. -/
def jsMathRound (q : ℚ) : Int := ⌊q + 1 / 2⌋

/-- Result shape of `getStorageStats`. -/
structure StorageStats where
  storageBytesRaw : Nat
  storageMB : ℚ
  storagePercent : ℚ
deriving DecidableEq, Repr

/-- `getStorageStats()`: lazy init, then a size snapshot.  The raw byte
count (`this.sql.databaseSize`, a host-provided measurement) is a
parameter. -/
def getStorageStats (now dbSize : Nat) (st : Store) : StorageStats × Store :=
  let st1 := ensureInitialized now st
  let raw : ℚ := (dbSize : ℚ)
  (⟨dbSize,
    (jsMathRound (raw / 1024 / 1024 * 100) : ℚ) / 100,
    (jsMathRound (raw / (10 * 1024 * 1024 * 1024) * 10000) : ℚ) / 100⟩, st1)

/-! ## Internal trust tokens -/

/-- `const DEFAULT_INTERNAL_SECRET = 'development-secret-key'`; the
same literal is the fallback in the middleware file. -/
def DEFAULT_INTERNAL_SECRET : String := "development-secret-key"

/-- Claim set of an internal token: `{orgId, userId}` plus the standard
`iat`/`exp` claims set by `setIssuedAt()` / `setExpirationTime('1h')`. -/
structure InternalClaims where
  orgId : String
  userId : String
  iat : Nat
  exp : Nat
deriving DecidableEq, Repr

def claimSep : String := "#"

/-- Abstract model of the HS256 signature: a deterministic tag over the
key and the claim set (forgery resistance is not needed by any claim
proved here, only the equality test performed by verification). -/
def hs256Tag (key : String) (c : InternalClaims) : String :=
  String.intercalate claimSep
    [key, c.orgId, c.userId, toString c.iat, toString c.exp]

/-- A signed internal token: claims plus signature. -/
structure InternalToken where
  claims : InternalClaims
  sig : String
deriving DecidableEq, Repr

/-- `generateInternalToken(orgId, userId)`: sign `{orgId, userId}` with
the configured secret (JS `||` fallback to the development secret),
`iat` = now, `exp` = now + 1 hour. -/
def generateInternalToken (internalSecret : Option String) (now : Nat)
    (orgId userId : String) : InternalToken :=
  let secret := jsOrDefault internalSecret DEFAULT_INTERNAL_SECRET
  let claims : InternalClaims := ⟨orgId, userId, now, now + 3600⟩
  ⟨claims, hs256Tag secret claims⟩

inductive VerifyError
  | badSignature
  | expired
deriving DecidableEq, Repr

/-- `jwtVerify(token, secretKey)` for an HS256 token: the signature
must match and the `exp` claim must still be in the future. -/
def verifyHs256 (secret : String) (now : Nat) (t : InternalToken) :
    Except VerifyError InternalClaims :=
  if t.sig == hs256Tag secret t.claims then
    if t.claims.exp ≤ now then .error .expired else .ok t.claims
  else .error .badSignature

/-! ## Authentication middleware -/

/-- Request-scoped identity context (`userId`, `orgId`, `orgRole`). -/
structure Identity where
  userId : String
  orgId : Option String
  orgRole : Option String
deriving DecidableEq, Repr

/-- Outcome of a middleware stage: an error response
(`c.json({error}, status)`) or proceeding to the handler with the
context variables set. -/
inductive MwResult
  | response (status : Nat) (msg : String)
  | next (ident : Identity)
deriving DecidableEq, Repr

def msgMissingAuthHeader : String :=
  "Unauthorized: Missing or invalid Authorization header"
def msgConfigError : String := "Server configuration error"
def msgInvalidToken : String := "Unauthorized: Invalid token"
def msgMissingInternal : String := "Unauthorized: Missing internal token"
def msgInvalidInternal : String := "Unauthorized: Invalid internal token"
def bearerScheme : String := "Bearer "

/-- Claims of a verified Clerk JWT. -/
structure ClerkJWTPayload where
  sub : String
  org_id : Option String
  org_role : Option String
  org_slug : Option String
deriving DecidableEq, Repr

/-- `s.startsWith(pre)`, modelled on the character sequence (the
built-in `String.startsWith` is opaque to kernel evaluation). -/
def strStartsWith (s pre : String) : Bool :=
  s.data.take pre.data.length == pre.data

/-- `authHeader?.startsWith('Bearer ')`. -/
def bearerHeaderOk (h : Option String) : Bool :=
  match h with
  | some s => strStartsWith s bearerScheme
  | none => false

/-- The `clerkAuth` middleware.  The external verification primitive
(`jwtVerify` against the remote JWKS of the configured issuer) is the
oracle parameter `verify`; any exception it raises is an `.error`. -/
def clerkAuth (issuerUrl : Option String)
    (verify : String → Except String ClerkJWTPayload)
    (authHeader : Option String) : MwResult :=
  if bearerHeaderOk authHeader then
    let token := (authHeader.getD emptyStr).drop 7
    if (issuerUrl.getD emptyStr) == emptyStr then .response 500 msgConfigError
    else
      match verify token with
      | .error _ => .response 401 msgInvalidToken
      | .ok p => .next ⟨p.sub, jsStrOrNull p.org_id, jsStrOrNull p.org_role⟩
  else .response 401 msgMissingAuthHeader

/-- The `internalAuth` middleware.  The `X-Internal-Token` header is
modelled pre-parsed; a missing (or JS-falsy) header is `none`. -/
def internalAuth (internalSecret : Option String) (now : Nat)
    (tokenHeader : Option InternalToken) : MwResult :=
  match tokenHeader with
  | none => .response 401 msgMissingInternal
  | some t =>
    let secret := jsOrDefault internalSecret DEFAULT_INTERNAL_SECRET
    match verifyHs256 secret now t with
    | .error _ => .response 401 msgInvalidInternal
    | .ok p => .next ⟨p.userId, some p.orgId, none⟩

/-- An inbound request's credential headers. -/
structure AppRequest where
  authorization : Option String
  xInternalToken : Option InternalToken
deriving Repr

/-- `app.use('/api/*', clerkAuth)`: the only authentication middleware
mounted in front of the tenant-facing API routes is the external-token
stage; `internalAuth` is defined for DO-to-DO calls but is not mounted
on any route in the application. -/
def apiAuth (issuerUrl : Option String)
    (verify : String → Except String ClerkJWTPayload)
    (req : AppRequest) : MwResult :=
  clerkAuth issuerUrl verify req.authorization

/-! ## Plan resolution and limits -/

inductive PlanType
  | FREE
  | STANDARD
  | ENTERPRISE
deriving DecidableEq, Repr

structure StripePrice where
  id : String
deriving DecidableEq, Repr

structure StripeSubItem where
  price : Option StripePrice
deriving DecidableEq, Repr

structure StripeSubscription where
  items : List StripeSubItem
deriving DecidableEq, Repr

/-- `getSubscriptionPlanType(stripe, customerId)`: the external call
`stripe.subscriptions.list({customer, status: 'active', limit: 1})` is
the `listResult` parameter; the surrounding try/catch maps any raised
error to FREE, the empty list to FREE, and any active subscription to
STANDARD (the ENTERPRISE branch is commented out in the source). -/
def getSubscriptionPlanType
    (listResult : Except String (List StripeSubscription)) : PlanType :=
  match listResult with
  | .error _ => .FREE
  | .ok subs =>
    match subs with
    | [] => .FREE
    | sub :: _ =>
      let _priceId := (sub.items.head?.bind (fun it => it.price)).map (fun p => p.id)
      .STANDARD

/-- A plan's limit tuple; `none` models the JS `Infinity` bounds of the
ENTERPRISE tier. -/
structure PlanLimits where
  maxItems : Option Nat
  maxStorage : Option Nat
  features : List String
deriving DecidableEq, Repr

def basicFeature : String := "basic"
def advancedFeature : String := "advanced"
def enterpriseFeature : String := "enterprise"

/-- The `PLAN_LIMITS` configuration table. -/
def PLAN_LIMITS : PlanType → PlanLimits
  | .FREE => ⟨some 10, some 100, [basicFeature]⟩
  | .STANDARD => ⟨some 100, some 1000, [basicFeature, advancedFeature]⟩
  | .ENTERPRISE => ⟨none, none, [basicFeature, advancedFeature, enterpriseFeature]⟩

/-- JS `n < m` where `m` may be `Infinity`. -/
def jsLtMaybeInf (n : Nat) (m : Option Nat) : Bool :=
  match m with
  | none => true
  | some k => n < k

/-! ## Billing reconciliation -/

structure UsageInfo where
  items : Nat
  storage : Nat
deriving DecidableEq, Repr

structure UsageResponse where
  planType : PlanType
  limits : PlanLimits
  usage : UsageInfo
  canAddMore : Bool
deriving DecidableEq, Repr

/-- Body of the `GET /api/billing/usage` handler after the auth and
configuration checks.  Modelled from the spec: the tenant-local usage
count is specified as sourced from the Storage Actor by an external,
business-specific counter; the source file leaves that counter as a
TODO placeholder fixing `currentUsage` to zero, so the count is the
parameter `currentUsage` here.  Customer lookup, plan resolution and
the `canAddMore` comparison follow the source. -/
def usageHandler (now : Nat)
    (subsResult : Except String (List StripeSubscription))
    (currentUsage : UsageInfo) (st : Store) :
    Except Fault (UsageResponse × Store) :=
  match query now .selectCustomerId [] st with
  | .error e => .error e
  | .ok (rows, st1) =>
    let planType : PlanType :=
      match rows.head? with
      | some r =>
        if jsFalsy r.stripe_customer_id then .FREE
        else getSubscriptionPlanType subsResult
      | none => .FREE
    let limits := PLAN_LIMITS planType
    .ok (⟨planType, limits, currentUsage,
          jsLtMaybeInf currentUsage.items limits.maxItems⟩, st1)

/-- A Stripe customer record as created by `stripe.customers.create`. -/
structure StripeCustomer where
  id : String
  name : String
  email : Option String
  metaOrgId : String
  metaUserId : String
deriving DecidableEq, Repr

/-- The external billing provider's state: the customers created so
far.  `customers.length` doubles as the number of create calls. -/
structure StripeState where
  customers : List StripeCustomer
deriving DecidableEq, Repr

def cusIdBase : String := "cus_"

/-- A fresh customer id minted by the provider. -/
def freshCustomerId (s : StripeState) : String :=
  cusIdBase ++ toString s.customers.length

/-- `stripe.customers.create({name, email, metadata})`. -/
def customersCreate (s : StripeState) (name : String) (email : Option String)
    (orgId userId : String) : StripeCustomer × StripeState :=
  let c : StripeCustomer := ⟨freshCustomerId s, name, email, orgId, userId⟩
  (c, ⟨s.customers ++ [c]⟩)

/-- Clerk user lookup result (`getClerkUser`; `none` models a failed or
non-ok response). -/
structure ClerkUser where
  email_addresses : List String
  first_name : Option String
  last_name : Option String
deriving DecidableEq, Repr

/-- Clerk organization lookup result (`getClerkOrganization`). -/
structure ClerkOrg where
  name : String
deriving DecidableEq, Repr

def spaceStr : String := " "

/-- `[user.first_name, user.last_name].filter(Boolean).join(' ')`. -/
def fullNameOf (fn ln : Option String) : String :=
  String.intercalate spaceStr ([fn, ln].filterMap jsStrOrNull)

/-- The `customerName`/`customerEmail` resolution of
`getOrCreateStripeCustomer`: best-effort Clerk lookup, falling back to
the raw tenant id. -/
def resolveCustomerNameEmail (clerkSecretKey : Option String)
    (clerkUserLookup : Option ClerkUser) (clerkOrgLookup : Option ClerkOrg)
    (orgId userId : String) : String × Option String :=
  if (clerkSecretKey.getD emptyStr) == emptyStr then (orgId, none)
  else if orgId == userId then
    match clerkUserLookup with
    | some user =>
      let customerEmail := user.email_addresses.head?
      let fullName := fullNameOf user.first_name user.last_name
      (jsOrDefault (some fullName) (jsOrDefault customerEmail orgId),
       customerEmail)
    | none => (orgId, none)
  else
    match clerkOrgLookup with
    | some org =>
      ((if org.name == emptyStr then orgId else org.name), none)
    | none => (orgId, none)

/-- Create-and-persist path of `getOrCreateStripeCustomer`: resolve a
name, create the external customer, persist its id into the singleton
row (note the single-array bind argument `[customer.id]`). -/
def createCustomerAndPersist (now : Nat) (clerkSecretKey : Option String)
    (clerkUserLookup : Option ClerkUser) (clerkOrgLookup : Option ClerkOrg)
    (orgId userId : String) (stripe : StripeState) (st : Store) :
    Except Fault (String × StripeState × Store) :=
  let nameEmail := resolveCustomerNameEmail clerkSecretKey clerkUserLookup
    clerkOrgLookup orgId userId
  let created := customersCreate stripe nameEmail.1 nameEmail.2 orgId userId
  match query now .updateCustomerId [Arg.arr [.s created.1.id]] st with
  | .error e => .error e
  | .ok (_, st2) => .ok (created.1.id, created.2, st2)

/-- `getOrCreateStripeCustomer(stripe, stub, orgId, userId,
clerkSecretKey)`: fast path returns the persisted customer id when the
singleton row holds a truthy one; otherwise create and persist. -/
def getOrCreateStripeCustomer (now : Nat) (clerkSecretKey : Option String)
    (clerkUserLookup : Option ClerkUser) (clerkOrgLookup : Option ClerkOrg)
    (orgId userId : String) (stripe : StripeState) (st : Store) :
    Except Fault (String × StripeState × Store) :=
  match query now .selectCustomerId [] st with
  | .error e => .error e
  | .ok (rows, st1) =>
    match rows.head? with
    | some r =>
      if jsFalsy r.stripe_customer_id then
        createCustomerAndPersist now clerkSecretKey clerkUserLookup
          clerkOrgLookup orgId userId stripe st1
      else .ok (sqlAsString r.stripe_customer_id, stripe, st1)
    | none =>
      createCustomerAndPersist now clerkSecretKey clerkUserLookup
        clerkOrgLookup orgId userId stripe st1

/-! ## Test fixtures for witnesses and counterexamples -/

def tOrg : String := "org_1"
def tUser : String := "user_1"
def tUserB : String := "user_2"
def tEmailA : String := "a@example.com"
def tEmailB : String := "b@example.com"
def tIssuer : String := "https://clerk.example.test"
def tAuthHeader : String := "Bearer tok"
def tSecret : String := "s3cret"
def tErr : String := "network error"

/-- A verification oracle that always raises. -/
def verifyAlwaysFail : String → Except String ClerkJWTPayload :=
  fun _ => .error tErr

/-- A verification oracle that always succeeds with a fixed payload. -/
def verifyAlwaysOk : String → Except String ClerkJWTPayload :=
  fun _ => .ok ⟨tUser, some tOrg, none, none⟩

/-- The store of a just-seeded fresh actor. -/
def seededStore (now : Nat) : Store := ⟨some [defaultRow now], true⟩

/-- A store whose singleton row already records a creator. -/
def stWithCreator : Store :=
  ⟨some [⟨1, .null, .s tUser, .s tEmailA, .i 10, .i 10⟩], true⟩

def cusZero : String := "cus_0"

/-- A store whose singleton row already records a billing customer. -/
def stWithCustomer : Store :=
  ⟨some [⟨1, .s cusZero, .null, .null, .i 20, .i 20⟩], true⟩

/-- A request carrying only a (valid) internal token. -/
def reqInternalOnly : AppRequest :=
  ⟨none, some (generateInternalToken (some tSecret) 50 tOrg tUser)⟩

/-- A request carrying no credential at all. -/
def reqNoCreds : AppRequest := ⟨none, none⟩

/-! ## Helper lemmas -/

instance {ε α : Type} [DecidableEq ε] [DecidableEq α] :
    DecidableEq (Except ε α) := fun a b =>
  match a, b with
  | .error e, .error f =>
    if h : e = f then .isTrue (congrArg Except.error h)
    else .isFalse (fun hc => h (Except.error.inj hc))
  | .ok x, .ok y =>
    if h : x = y then .isTrue (congrArg Except.ok h)
    else .isFalse (fun hc => h (Except.ok.inj hc))
  | .error _, .ok _ => .isFalse (fun hc => Except.noConfusion hc)
  | .ok _, .error _ => .isFalse (fun hc => Except.noConfusion hc)

theorem head?_filter {α : Type} (p : α → Bool) (l : List α) :
    (l.filter p).head? = l.find? p := by
  induction l with
  | nil => rfl
  | cons a t ih =>
    by_cases h : p a
    · simp [List.filter_cons, h, List.find?_cons_of_pos _ h]
    · simp [List.filter_cons, h, List.find?_cons_of_neg _ h, ih]

theorem ensureInitialized_fresh (now : Nat) :
    ensureInitialized now freshStore = seededStore now := rfl

theorem ensureInitialized_flag (now : Nat) (st : Store) :
    (ensureInitialized now st).initialized = true := by
  unfold ensureInitialized
  split
  · next h => exact h
  · rfl

theorem ensureInitialized_of_flag (now : Nat) (st : Store)
    (h : st.initialized = true) : ensureInitialized now st = st := by
  unfold ensureInitialized
  simp [h]

theorem ensureInitialized_idem (now1 now2 : Nat) (st : Store) :
    ensureInitialized now2 (ensureInitialized now1 st) =
      ensureInitialized now1 st :=
  ensureInitialized_of_flag now2 _ (ensureInitialized_flag now1 st)

/-! ## C1 -/

/-- C1: `resolvePlanType` (`getSubscriptionPlanType`) returns FREE when
the external billing call raises any error and FREE when the customer
has zero active subscriptions, and never propagates a billing-provider
error on this read path (its result is always a plan tier). -/
theorem c1_resolve_plan_type_fail_safe :
    (∀ e, getSubscriptionPlanType (.error e) = .FREE) ∧
    getSubscriptionPlanType (.ok []) = .FREE ∧
    (∀ r, getSubscriptionPlanType r = .FREE ∨
          getSubscriptionPlanType r = .STANDARD) := by
  refine ⟨fun e => rfl, rfl, fun r => ?_⟩
  match r with
  | .error _ => exact Or.inl rfl
  | .ok [] => exact Or.inl rfl
  | .ok (s :: t) => exact Or.inr rfl

/-! ## C10 -/

theorem flattenArgs_map_val (vs : List SqlValue) :
    flattenArgs (vs.map Arg.val) = vs.map Arg.val := by
  cases vs with
  | nil => rfl
  | cons a t => cases t <;> rfl

/-- C10: calling the Storage Actor's `query` or `exec` with a single
array argument is the same as passing the array's elements as
individual bind parameters (the lone array is flattened before
execution). -/
theorem c10_lone_array_flattening :
    ∀ (now : Nat) (stmt : Stmt) (vs : List SqlValue) (st : Store),
      query now stmt [Arg.arr vs] st = query now stmt (vs.map Arg.val) st ∧
      exec now stmt [Arg.arr vs] st = exec now stmt (vs.map Arg.val) st := by
  intro now stmt vs st
  constructor
  · unfold query
    rw [show flattenArgs [Arg.arr vs] = vs.map Arg.val from rfl,
        flattenArgs_map_val]
  · unfold exec
    rw [show flattenArgs [Arg.arr vs] = vs.map Arg.val from rfl,
        flattenArgs_map_val]

/-! ## C4 -/

/-- C4: the external-token stage rejects with 401 whenever the
Authorization header is missing or not bearer-scheme; any error raised
by the verification primitive yields a 401 with the generic invalid
token message regardless of the error; the identity context is
populated only when verification succeeds. -/
theorem c4_clerk_auth_fail_closed :
    (∀ iss verify h, bearerHeaderOk h = false →
        clerkAuth iss verify h = .response 401 msgMissingAuthHeader) ∧
    (∀ iss verify h e, bearerHeaderOk h = true →
        (iss.getD emptyStr) ≠ emptyStr →
        verify ((h.getD emptyStr).drop 7) = .error e →
        clerkAuth iss verify h = .response 401 msgInvalidToken) ∧
    (∀ iss verify h ident, clerkAuth iss verify h = .next ident →
        ∃ p, verify ((h.getD emptyStr).drop 7) = .ok p ∧
          ident = ⟨p.sub, jsStrOrNull p.org_id, jsStrOrNull p.org_role⟩) := by
  refine ⟨?_, ?_, ?_⟩
  · intro iss verify h hb
    simp [clerkAuth, hb]
  · intro iss verify h e hb hiss hv
    simp [clerkAuth, hb, hiss, hv]
  · intro iss verify h ident hnext
    by_cases hb : bearerHeaderOk h
    · by_cases hiss : (iss.getD emptyStr) = emptyStr
      · simp [clerkAuth, hb, hiss] at hnext
      · cases hv : verify ((h.getD emptyStr).drop 7) with
        | error e => simp [clerkAuth, hb, hiss, hv] at hnext
        | ok p =>
          simp [clerkAuth, hb, hiss, hv] at hnext
          exact ⟨p, rfl, hnext.symm⟩
    · simp [clerkAuth, hb] at hnext

/-- Witness for C4 at concrete requests: a missing header, a failing
verifier behind a bearer header, and a succeeding verifier. -/
theorem c4_witness :
    clerkAuth (some tIssuer) verifyAlwaysFail none =
      .response 401 msgMissingAuthHeader ∧
    clerkAuth (some tIssuer) verifyAlwaysFail (some tAuthHeader) =
      .response 401 msgInvalidToken ∧
    (∃ p, verifyAlwaysOk ((some tAuthHeader).getD emptyStr |>.drop 7) = .ok p ∧
      (⟨tUser, some tOrg, none⟩ : Identity) =
        ⟨p.sub, jsStrOrNull p.org_id, jsStrOrNull p.org_role⟩) :=
  ⟨c4_clerk_auth_fail_closed.1 (some tIssuer) verifyAlwaysFail none rfl,
   c4_clerk_auth_fail_closed.2.1 (some tIssuer) verifyAlwaysFail
     (some tAuthHeader) tErr (by decide) (by decide) rfl,
   c4_clerk_auth_fail_closed.2.2 (some tIssuer) verifyAlwaysOk
     (some tAuthHeader) ⟨tUser, some tOrg, none⟩ (by decide)⟩

/-! ## C5 -/

/-- C5: every internal token minted by `generateInternalToken` expires
exactly one hour after its issue time, and the internal-token stage
rejects any token whose expiration has passed even when its signature
is valid under the effective shared secret. -/
theorem c5_internal_token_expiry :
    (∀ cfg now orgId userId,
        (generateInternalToken cfg now orgId userId).claims.exp =
          (generateInternalToken cfg now orgId userId).claims.iat + 3600) ∧
    (∀ cfg now (t : InternalToken),
        t.sig = hs256Tag (jsOrDefault cfg DEFAULT_INTERNAL_SECRET) t.claims →
        t.claims.exp ≤ now →
        internalAuth cfg now (some t) = .response 401 msgInvalidInternal) := by
  constructor
  · intro cfg now orgId userId
    rfl
  · intro cfg now t hsig hexp
    simp [internalAuth, verifyHs256, hsig, hexp]

/-- Witness for C5: a token minted at epoch second 50 with a configured
secret carries exp = iat + 3600, has a valid signature, and is rejected
at epoch second 5000. -/
theorem c5_witness :
    (generateInternalToken (some tSecret) 50 tOrg tUser).claims.exp =
      (generateInternalToken (some tSecret) 50 tOrg tUser).claims.iat + 3600 ∧
    (generateInternalToken (some tSecret) 50 tOrg tUser).sig =
      hs256Tag (jsOrDefault (some tSecret) DEFAULT_INTERNAL_SECRET)
        (generateInternalToken (some tSecret) 50 tOrg tUser).claims ∧
    internalAuth (some tSecret) 5000
      (some (generateInternalToken (some tSecret) 50 tOrg tUser)) =
      .response 401 msgInvalidInternal :=
  ⟨c5_internal_token_expiry.1 (some tSecret) 50 tOrg tUser,
   by decide,
   c5_internal_token_expiry.2 (some tSecret) 5000
     (generateInternalToken (some tSecret) 50 tOrg tUser)
     (by decide) (by decide)⟩

/-! ## C6 -/

/-- C6 counterexample: with the JS truthiness check
`!current?.creator_user_id`, a first call recording the empty string as
`creatorUserId` is overwritten by a second call with different
arguments, so first-writer-wins fails as universally stated. -/
theorem c6_counterexample :
    ∃ st1 st2,
      setCreatorIfNotSet 100 emptyStr (some tEmailA) freshStore = .ok st1 ∧
      creatorOf st1 = .s emptyStr ∧
      setCreatorIfNotSet 200 tUserB (some tEmailB) st1 = .ok st2 ∧
      creatorOf st2 = .s tUserB ∧
      creatorOf st2 ≠ creatorOf st1 :=
  ⟨⟨some [⟨1, .null, .s emptyStr, .s tEmailA, .i 100, .i 100⟩], true⟩,
   ⟨some [⟨1, .null, .s tUserB, .s tEmailB, .i 100, .i 200⟩], true⟩,
   by decide, by decide, by decide, by decide, by decide⟩

/-- C6 (amended): `setCreatorIfNotSet` is first-writer-wins provided
the first call's userId is a non-empty string: the first call on a
fresh tenant records (userId, email), and a second call with any
different arguments leaves the store unchanged. -/
theorem c6_first_writer_wins :
    ∀ now1 now2 u1 e1 u2 e2, u1 ≠ emptyStr →
      ∃ st1, setCreatorIfNotSet now1 u1 e1 freshStore = .ok st1 ∧
        creatorOf st1 = .s u1 ∧
        creatorEmailOf st1 = sqlOfJsString e1 ∧
        setCreatorIfNotSet now2 u2 e2 st1 = .ok st1 := by
  intro now1 now2 u1 e1 u2 e2 h
  refine ⟨⟨some [⟨1, .null, .s u1, sqlOfJsString e1, .i (now1 : Int),
    .i (now1 : Int)⟩], true⟩, rfl, rfl, rfl, ?_⟩
  simp [setCreatorIfNotSet, queryOne, query, exec, execStmtWith,
    ensureInitialized, flattenArgs, jsFalsy, h]

/-- Witness for C6 (amended) at concrete arguments. -/
theorem c6_witness :
    ∃ st1, setCreatorIfNotSet 100 tUser (some tEmailA) freshStore = .ok st1 ∧
      creatorOf st1 = .s tUser ∧
      creatorEmailOf st1 = sqlOfJsString (some tEmailA) ∧
      setCreatorIfNotSet 200 tUserB (some tEmailB) st1 = .ok st1 :=
  c6_first_writer_wins 100 200 tUser (some tEmailA) tUserB (some tEmailB)
    (by decide)

/-! ## C7 -/

theorem ensureInitialized_settings_of_row1 (now : Nat) (st : Store)
    (tbl : List SettingsRow) (r : SettingsRow)
    (hset : st.settings = some tbl)
    (hfind : tbl.find? (fun x => x.id == 1) = some r) :
    (ensureInitialized now st).settings = some tbl := by
  unfold ensureInitialized
  by_cases hflag : st.initialized
  · simp [hflag, hset]
  · have hm : r ∈ tbl := List.mem_of_find?_eq_some hfind
    have hp : (r.id == 1) = true := by
      have := List.find?_some hfind
      simpa using this
    have hany : tbl.any (fun x => x.id == 1) = true :=
      List.any_eq_true.mpr ⟨r, hm, hp⟩
    simp [hflag, insertDefaultOrIgnore, createTableIfNotExists, hset, hany]

/-- C7: when a (truthy) creator is already recorded,
`setCreatorIfNotSet` succeeds and leaves every field of the tenant
record unchanged; when it does write (fresh tenant initialized at
`now0`, written at `now1`), it sets the creator fields and advances
`updated_at` to the write time while `created_at` and
`stripe_customer_id` are untouched. -/
theorem c7_set_creator_frame :
    (∀ now u e st, jsFalsy (creatorOf st) = false →
        ∃ st1, setCreatorIfNotSet now u e st = .ok st1 ∧
          st1.settings = st.settings) ∧
    (∀ now0 now1 u e,
        ∃ st1,
          setCreatorIfNotSet now1 u e (ensureInitialized now0 freshStore) =
            .ok st1 ∧
          creatorOf st1 = .s u ∧
          creatorEmailOf st1 = sqlOfJsString e ∧
          updatedAtOf st1 = .i (now1 : Int) ∧
          createdAtOf st1 = .i (now0 : Int) ∧
          customerOf st1 = customerOf (ensureInitialized now0 freshStore)) := by
  constructor
  · intro now u e st h
    obtain ⟨tbl, hset, r, hfind, hr⟩ :
        ∃ tbl, st.settings = some tbl ∧
          ∃ r, tbl.find? (fun x => x.id == 1) = some r ∧
            jsFalsy r.creator_user_id = false := by
      cases hs : st.settings with
      | none => simp [creatorOf, row1, hs, jsFalsy] at h
      | some tbl =>
        cases hf : tbl.find? (fun x => x.id == 1) with
        | none => simp [creatorOf, row1, hs, hf, jsFalsy] at h
        | some r =>
          refine ⟨tbl, rfl, r, hf, ?_⟩
          simp [creatorOf, row1, hs, hf] at h
          simpa using h
    have hset0 : (ensureInitialized now st).settings = some tbl :=
      ensureInitialized_settings_of_row1 now st tbl r hset hfind
    have hq : queryOne now .selectCreator [] (ensureInitialized now st) =
        .ok (some r, ensureInitialized now st) := by
      unfold queryOne query
      rw [ensureInitialized_idem]
      simp [execStmtWith, flattenArgs, hset0, head?_filter, hfind]
    refine ⟨ensureInitialized now st, ?_, hset0.trans hset.symm⟩
    unfold setCreatorIfNotSet
    simp only [hq]
    simp [hr]
  · intro now0 now1 u e
    exact ⟨⟨some [⟨1, .null, .s u, sqlOfJsString e, .i (now0 : Int),
      .i (now1 : Int)⟩], true⟩, rfl, rfl, rfl, rfl, rfl, rfl⟩

/-- Witness for C7: the no-op branch on a store already recording a
creator, and the write branch on a fresh store. -/
theorem c7_witness :
    (∃ st1, setCreatorIfNotSet 99 tUserB (some tEmailB) stWithCreator =
        .ok st1 ∧ st1.settings = stWithCreator.settings) ∧
    (∃ st1, setCreatorIfNotSet 7 tUser (some tEmailA)
        (ensureInitialized 3 freshStore) = .ok st1 ∧
      creatorOf st1 = .s tUser ∧
      creatorEmailOf st1 = sqlOfJsString (some tEmailA) ∧
      updatedAtOf st1 = .i (7 : Int) ∧
      createdAtOf st1 = .i (3 : Int) ∧
      customerOf st1 = customerOf (ensureInitialized 3 freshStore)) :=
  ⟨c7_set_creator_frame.1 99 tUserB (some tEmailB) stWithCreator (by decide),
   c7_set_creator_frame.2 3 7 tUser (some tEmailA)⟩

/-! ## C2 -/

theorem freshCustomerId_beq_empty (s : StripeState) :
    (freshCustomerId s == emptyStr) = false := by
  apply beq_eq_false_iff_ne.mpr
  intro h
  have hl := congrArg String.length h
  rw [freshCustomerId, String.length_append] at hl
  simp [emptyStr, cusIdBase] at hl
  exact absurd hl.1 (by decide)

theorem ensure_hasRow1 (now : Nat) (st : Store) (h : st.initialized = false) :
    ∃ tbl r, (ensureInitialized now st).settings = some tbl ∧
      tbl.find? (fun x => x.id == 1) = some r := by
  unfold ensureInitialized
  rw [h]
  simp only [Bool.false_eq_true, if_false]
  cases hs : st.settings with
  | none =>
    refine ⟨[defaultRow now], defaultRow now, ?_, rfl⟩
    simp [insertDefaultOrIgnore, createTableIfNotExists, hs]
  | some tbl =>
    by_cases hany : tbl.any (fun x => x.id == 1) = true
    · obtain ⟨r, hmem, hr⟩ := List.any_eq_true.mp hany
      have hsome : (tbl.find? (fun x => x.id == 1)).isSome := by
        rw [List.find?_isSome]
        exact ⟨r, hmem, hr⟩
      obtain ⟨r0, hr0⟩ := Option.isSome_iff_exists.mp hsome
      refine ⟨tbl, r0, ?_, hr0⟩
      simp [insertDefaultOrIgnore, createTableIfNotExists, hs, hany]
    · refine ⟨tbl ++ [defaultRow now], ?_⟩
      have hfind0 : tbl.find? (fun x => x.id == 1) = none := by
        rw [List.find?_eq_none]
        intro x hx hpx
        exact hany (List.any_eq_true.mpr ⟨x, hx, hpx⟩)
      refine ⟨defaultRow now, ?_, ?_⟩
      · simp [insertDefaultOrIgnore, createTableIfNotExists, hs, hany]
      · rw [List.find?_append, hfind0]
        rfl

theorem find?_row1_map_set (tbl : List SettingsRow) (r0 : SettingsRow)
    (v : SqlValue)
    (hfind : tbl.find? (fun x => x.id == 1) = some r0) :
    (tbl.map (fun r =>
        if r.id == 1 then { r with stripe_customer_id := v } else r)).find?
      (fun x => x.id == 1) = some { r0 with stripe_customer_id := v } := by
  rw [List.find?_map]
  have hpf : ((fun (x : SettingsRow) => x.id == 1) ∘ (fun (r : SettingsRow) =>
      if r.id == 1 then { r with stripe_customer_id := v } else r)) =
      (fun (x : SettingsRow) => x.id == 1) := by
    funext x
    by_cases hx : (x.id == 1) = true <;> simp [Function.comp, hx]
  rw [hpf, hfind]
  have hp0 : (r0.id == 1) = true := by simpa using List.find?_some hfind
  have hp1 : r0.id = 1 := by simpa using hp0
  simp [hp0, hp1]

theorem getOrCreate_fast (now : Nat) (sk : Option String)
    (ul : Option ClerkUser) (ol : Option ClerkOrg) (orgId userId : String)
    (stripe : StripeState) (st : Store) (tbl : List SettingsRow)
    (r : SettingsRow)
    (hset : st.settings = some tbl)
    (hfind : tbl.find? (fun x => x.id == 1) = some r)
    (hflag : st.initialized = true)
    (hr : jsFalsy r.stripe_customer_id = false) :
    getOrCreateStripeCustomer now sk ul ol orgId userId stripe st =
      .ok (sqlAsString r.stripe_customer_id, stripe, st) := by
  unfold getOrCreateStripeCustomer query
  rw [ensureInitialized_of_flag now st hflag]
  simp [execStmtWith, flattenArgs, hset, head?_filter, hfind, hr]

theorem createCustomerAndPersist_eq (now : Nat) (sk : Option String)
    (ul : Option ClerkUser) (ol : Option ClerkOrg) (orgId userId : String)
    (stripe : StripeState) (st : Store) (tbl : List SettingsRow)
    (hset : st.settings = some tbl)
    (hflag : st.initialized = true) :
    createCustomerAndPersist now sk ul ol orgId userId stripe st =
      .ok (freshCustomerId stripe,
        (customersCreate stripe
          (resolveCustomerNameEmail sk ul ol orgId userId).1
          (resolveCustomerNameEmail sk ul ol orgId userId).2 orgId userId).2,
        { st with settings := some (tbl.map (fun r =>
            if r.id == 1 then
              { r with stripe_customer_id := SqlValue.s (freshCustomerId stripe) }
            else r)) }) := by
  unfold createCustomerAndPersist query
  rw [ensureInitialized_of_flag _ _ hflag]
  simp [execStmtWith, flattenArgs, hset, customersCreate]

theorem getOrCreate_post (now : Nat) (sk : Option String)
    (ul : Option ClerkUser) (ol : Option ClerkOrg) (orgId userId : String)
    (stripe : StripeState) (st : Store) (cid : String) (s1 : StripeState)
    (st1 : Store)
    (hflag : st.initialized = false)
    (hrun : getOrCreateStripeCustomer now sk ul ol orgId userId stripe st =
      .ok (cid, s1, st1)) :
    st1.initialized = true ∧
    ∃ tbl1 r1, st1.settings = some tbl1 ∧
      tbl1.find? (fun x => x.id == 1) = some r1 ∧
      jsFalsy r1.stripe_customer_id = false ∧
      sqlAsString r1.stripe_customer_id = cid := by
  obtain ⟨tbl0, r0, hset0, hfind0⟩ := ensure_hasRow1 now st hflag
  have hflag0 : (ensureInitialized now st).initialized = true :=
    ensureInitialized_flag now st
  unfold getOrCreateStripeCustomer query at hrun
  rw [show flattenArgs ([] : List Arg) = [] from rfl] at hrun
  rw [show execStmtWith now Stmt.selectCustomerId []
      (ensureInitialized now st) =
    .ok (tbl0.filter (fun x => x.id == 1), ensureInitialized now st) by
      simp [execStmtWith, hset0]] at hrun
  simp only [head?_filter, hfind0] at hrun
  by_cases hc : jsFalsy r0.stripe_customer_id = true
  · rw [if_pos hc] at hrun
    rw [createCustomerAndPersist_eq now sk ul ol orgId userId stripe _
      tbl0 hset0 hflag0] at hrun
    obtain ⟨hcid, hs1, hst1⟩ :
        freshCustomerId stripe = cid ∧
        (customersCreate stripe
          (resolveCustomerNameEmail sk ul ol orgId userId).1
          (resolveCustomerNameEmail sk ul ol orgId userId).2
          orgId userId).2 = s1 ∧
        { ensureInitialized now st with settings := some (tbl0.map (fun r =>
            if r.id == 1 then
              { r with stripe_customer_id :=
                  SqlValue.s (freshCustomerId stripe) }
            else r)) } = st1 := by
      simpa using hrun
    constructor
    · rw [← hst1]
      exact hflag0
    · rw [← hst1, ← hcid]
      exact ⟨_, { r0 with stripe_customer_id := .s (freshCustomerId stripe) },
        rfl, find?_row1_map_set tbl0 r0 _ hfind0,
        by simp [jsFalsy, freshCustomerId_beq_empty], rfl⟩
  · rw [if_neg hc] at hrun
    obtain ⟨hcid, hs1, hst1⟩ :
        sqlAsString r0.stripe_customer_id = cid ∧ stripe = s1 ∧
        ensureInitialized now st = st1 := by
      simpa using hrun
    rw [← hst1]
    exact ⟨hflag0, tbl0, r0, hset0, hfind0, by simpa using hc, hcid⟩

/-- C2: `getOrCreateStripeCustomer` is idempotent per tenant.  Fast
path: when the tenant record already holds a (truthy) billing customer
id, that id is returned and the external provider state is untouched
(no create call).  Two calls: starting from any store whose in-memory
init flag is unset, a successful first call is followed by a second
call that returns the same id, the same provider state (no second
create) and the same store. -/
theorem c2_get_or_create_idempotent :
    (∀ (now : Nat) (sk : Option String) (ul : Option ClerkUser)
        (ol : Option ClerkOrg) (orgId userId : String)
        (stripe : StripeState) (st : Store),
        st.initialized = true → jsFalsy (customerOf st) = false →
        getOrCreateStripeCustomer now sk ul ol orgId userId stripe st =
          .ok (sqlAsString (customerOf st), stripe, st)) ∧
    (∀ (now1 now2 : Nat) (sk1 sk2 : Option String)
        (ul1 ul2 : Option ClerkUser) (ol1 ol2 : Option ClerkOrg)
        (orgId userId : String) (stripe : StripeState) (st : Store)
        (cid : String) (s1 : StripeState) (st1 : Store),
        st.initialized = false →
        getOrCreateStripeCustomer now1 sk1 ul1 ol1 orgId userId stripe st =
          .ok (cid, s1, st1) →
        getOrCreateStripeCustomer now2 sk2 ul2 ol2 orgId userId s1 st1 =
          .ok (cid, s1, st1)) := by
  constructor
  · intro now sk ul ol orgId userId stripe st hflag h
    obtain ⟨tbl, hset, r, hfind, hr⟩ :
        ∃ tbl, st.settings = some tbl ∧
          ∃ r, tbl.find? (fun x => x.id == 1) = some r ∧
            jsFalsy r.stripe_customer_id = false := by
      cases hs : st.settings with
      | none => simp [customerOf, row1, hs, jsFalsy] at h
      | some tbl =>
        cases hf : tbl.find? (fun x => x.id == 1) with
        | none => simp [customerOf, row1, hs, hf, jsFalsy] at h
        | some r =>
          refine ⟨tbl, rfl, r, hf, ?_⟩
          simp [customerOf, row1, hs, hf] at h
          simpa using h
    have hcust : customerOf st = r.stripe_customer_id := by
      simp [customerOf, row1, hset, hfind]
    rw [hcust]
    exact getOrCreate_fast now sk ul ol orgId userId stripe st tbl r
      hset hfind hflag hr
  · intro now1 now2 sk1 sk2 ul1 ul2 ol1 ol2 orgId userId stripe st cid s1 st1
      hflag hrun1
    obtain ⟨hflag1, tbl1, r1, hset1, hfind1, hfalsy1, hcid1⟩ :=
      getOrCreate_post now1 sk1 ul1 ol1 orgId userId stripe st cid s1 st1
        hflag hrun1
    have hfast := getOrCreate_fast now2 sk2 ul2 ol2 orgId userId s1 st1
      tbl1 r1 hset1 hfind1 hflag1 hfalsy1
    rw [hcid1] at hfast
    exact hfast

/-- Witness for C2: the fast path on a store already holding a
customer id, and the create-then-return two-call scenario from a fresh
tenant actor. -/
theorem c2_witness :
    (getOrCreateStripeCustomer 11 none none none tOrg tUser ⟨[]⟩
        stWithCustomer = .ok (sqlAsString (customerOf stWithCustomer),
          ⟨[]⟩, stWithCustomer)) ∧
    (∃ cid s1 st1,
      getOrCreateStripeCustomer 5 none none none tOrg tUser ⟨[]⟩ freshStore =
        .ok (cid, s1, st1) ∧
      getOrCreateStripeCustomer 6 none none none tOrg tUser s1 st1 =
        .ok (cid, s1, st1)) :=
  ⟨c2_get_or_create_idempotent.1 11 none none none tOrg tUser ⟨[]⟩
     stWithCustomer (by decide) (by decide),
   ⟨cusZero, ⟨[⟨cusZero, tOrg, none, tOrg, tUser⟩]⟩,
    ⟨some [⟨1, .s cusZero, .null, .null, .i 5, .i 5⟩], true⟩,
    by decide,
    c2_get_or_create_idempotent.2 5 6 none none none none none none tOrg tUser
      ⟨[]⟩ freshStore cusZero ⟨[⟨cusZero, tOrg, none, tOrg, tUser⟩]⟩
      ⟨some [⟨1, .s cusZero, .null, .null, .i 5, .i 5⟩], true⟩
      rfl (by decide)⟩⟩

/-! ## C3 -/

theorem singletonRecord_seeded (n : Nat) : singletonRecord (seededStore n) :=
  ⟨[defaultRow n], rfl, rfl⟩

theorem execStmtWith_seeded_ok (now now0 : Nat) (stmt : Stmt)
    (fargs : List Arg) (h : argsOk stmt fargs = true) :
    ∃ rows st1, execStmtWith now stmt fargs (seededStore now0) =
      .ok (rows, st1) ∧ singletonRecord st1 := by
  cases stmt with
  | createTable =>
    cases fargs with
    | nil => exact ⟨[], seededStore now0, rfl, singletonRecord_seeded now0⟩
    | cons a t => simp [argsOk] at h
  | insertDefault =>
    cases fargs with
    | nil => exact ⟨[], seededStore now0, rfl, singletonRecord_seeded now0⟩
    | cons a t => simp [argsOk] at h
  | selectCustomerId =>
    cases fargs with
    | nil =>
      exact ⟨[defaultRow now0], seededStore now0, rfl,
        singletonRecord_seeded now0⟩
    | cons a t => simp [argsOk] at h
  | selectCreator =>
    cases fargs with
    | nil =>
      exact ⟨[defaultRow now0], seededStore now0, rfl,
        singletonRecord_seeded now0⟩
    | cons a t => simp [argsOk] at h
  | updateCustomerId =>
    match fargs, h with
    | [Arg.val v], _ =>
      exact ⟨[], ⟨some [⟨1, v, .null, .null, .i (now0 : Int),
        .i (now0 : Int)⟩], true⟩, rfl, _, rfl, rfl⟩
  | updateCreator =>
    match fargs, h with
    | [Arg.val u, Arg.val e, Arg.val t], _ =>
      exact ⟨[], ⟨some [⟨1, .null, u, e, .i (now0 : Int), t⟩], true⟩,
        rfl, _, rfl, rfl⟩

/-- C3: every Storage Actor operation invoked on a brand-new actor
(before any explicit initialization) succeeds, and afterwards exactly
one row with the singleton primary key exists; running initialization
again changes nothing (idempotent lazy init). -/
theorem c3_lazy_init :
    (∀ now stmt args, argsOk stmt (flattenArgs args) = true →
        ∃ rows st1, query now stmt args freshStore = .ok (rows, st1) ∧
          singletonRecord st1) ∧
    (∀ now stmt args, argsOk stmt (flattenArgs args) = true →
        ∃ row st1, queryOne now stmt args freshStore = .ok (row, st1) ∧
          singletonRecord st1) ∧
    (∀ now stmt args, argsOk stmt (flattenArgs args) = true →
        ∃ st1, exec now stmt args freshStore = .ok st1 ∧
          singletonRecord st1) ∧
    (∀ now dbSize, singletonRecord (getStorageStats now dbSize freshStore).2) ∧
    (∀ now u e, ∃ st1, setCreatorIfNotSet now u e freshStore = .ok st1 ∧
        singletonRecord st1) ∧
    (∀ now1 now2 st, ensureInitialized now2 (ensureInitialized now1 st) =
        ensureInitialized now1 st) := by
  refine ⟨?_, ?_, ?_, ?_, ?_, ensureInitialized_idem⟩
  · intro now stmt args h
    unfold query
    rw [ensureInitialized_fresh]
    exact execStmtWith_seeded_ok now now stmt (flattenArgs args) h
  · intro now stmt args h
    obtain ⟨rows, st1, hq, hs⟩ : ∃ rows st1,
        query now stmt args freshStore = .ok (rows, st1) ∧
          singletonRecord st1 := by
      unfold query
      rw [ensureInitialized_fresh]
      exact execStmtWith_seeded_ok now now stmt (flattenArgs args) h
    exact ⟨rows.head?, st1, by unfold queryOne; rw [hq], hs⟩
  · intro now stmt args h
    obtain ⟨rows, st1, hq, hs⟩ :=
      execStmtWith_seeded_ok now now stmt (flattenArgs args) h
    refine ⟨st1, ?_, hs⟩
    unfold exec
    rw [ensureInitialized_fresh, hq]
  · intro now dbSize
    exact singletonRecord_seeded now
  · intro now u e
    exact ⟨⟨some [⟨1, .null, .s u, sqlOfJsString e, .i (now : Int),
      .i (now : Int)⟩], true⟩, rfl, _, rfl, rfl⟩

/-- Witness for C3 at one concrete call per operation. -/
theorem c3_witness :
    (∃ rows st1, query 1 .selectCustomerId [] freshStore = .ok (rows, st1) ∧
        singletonRecord st1) ∧
    (∃ row st1, queryOne 2 .selectCreator [] freshStore = .ok (row, st1) ∧
        singletonRecord st1) ∧
    (∃ st1, exec 3 .updateCustomerId [Arg.arr [.s cusZero]] freshStore =
        .ok st1 ∧ singletonRecord st1) ∧
    singletonRecord (getStorageStats 4 2048 freshStore).2 ∧
    (∃ st1, setCreatorIfNotSet 5 tUser (some tEmailA) freshStore = .ok st1 ∧
        singletonRecord st1) ∧
    ensureInitialized 7 (ensureInitialized 6 freshStore) =
      ensureInitialized 6 freshStore :=
  ⟨c3_lazy_init.1 1 .selectCustomerId [] (by decide),
   c3_lazy_init.2.1 2 .selectCreator [] (by decide),
   c3_lazy_init.2.2.1 3 .updateCustomerId [Arg.arr [.s cusZero]] (by decide),
   c3_lazy_init.2.2.2.1 4 2048,
   c3_lazy_init.2.2.2.2.1 5 tUser (some tEmailA),
   c3_lazy_init.2.2.2.2.2 6 7 freshStore⟩

/-! ## C8 -/

/-- C8: the usage handler returns `canAddMore = usage.items <
limits.maxItems` for the resolved plan's limits; for a FREE-tier result
with 5 items it returns true, with 10 items false (FREE maxItems is
10). -/
theorem c8_usage_can_add_more :
    (∀ now subs u st res st1,
        usageHandler now subs u st = .ok (res, st1) →
        res.limits = PLAN_LIMITS res.planType ∧
        res.usage = u ∧
        res.canAddMore = jsLtMaybeInf u.items res.limits.maxItems) ∧
    (∀ now subs (stor : Nat) st res st1,
        usageHandler now subs ⟨5, stor⟩ st = .ok (res, st1) →
        res.planType = .FREE → res.canAddMore = true) ∧
    (∀ now subs (stor : Nat) st res st1,
        usageHandler now subs ⟨10, stor⟩ st = .ok (res, st1) →
        res.planType = .FREE → res.canAddMore = false) := by
  have main : ∀ now subs u st res st1,
      usageHandler now subs u st = .ok (res, st1) →
      res.limits = PLAN_LIMITS res.planType ∧
      res.usage = u ∧
      res.canAddMore = jsLtMaybeInf u.items res.limits.maxItems := by
    intro now subs u st res st1 hrun
    unfold usageHandler at hrun
    cases hq : query now .selectCustomerId [] st with
    | error e =>
      rw [hq] at hrun
      exact absurd hrun (by simp)
    | ok p =>
      obtain ⟨rows, stq⟩ := p
      rw [hq] at hrun
      obtain ⟨hres, hst⟩ : _ = res ∧ stq = st1 := by simpa using hrun
      rw [← hres]
      exact ⟨rfl, rfl, rfl⟩
  refine ⟨main, ?_, ?_⟩
  · intro now subs stor st res st1 hrun hfree
    obtain ⟨hlim, hu, hcan⟩ := main now subs ⟨5, stor⟩ st res st1 hrun
    rw [hcan, hlim, hfree]
    rfl
  · intro now subs stor st res st1 hrun hfree
    obtain ⟨hlim, hu, hcan⟩ := main now subs ⟨10, stor⟩ st res st1 hrun
    rw [hcan, hlim, hfree]
    rfl

/-- Witness for C8: concrete FREE-tier runs with 5 and 10 items. -/
theorem c8_witness :
    (∃ res st1, usageHandler 7 (.ok []) ⟨5, 0⟩ freshStore = .ok (res, st1) ∧
      res.planType = .FREE ∧ res.canAddMore = true) ∧
    (∃ res st1, usageHandler 8 (.ok []) ⟨10, 0⟩ freshStore = .ok (res, st1) ∧
      res.planType = .FREE ∧ res.canAddMore = false) :=
  ⟨⟨⟨.FREE, PLAN_LIMITS .FREE, ⟨5, 0⟩, true⟩, seededStore 7, rfl, rfl,
    c8_usage_can_add_more.2.1 7 (.ok []) 0 freshStore
      ⟨.FREE, PLAN_LIMITS .FREE, ⟨5, 0⟩, true⟩ (seededStore 7) rfl rfl⟩,
   ⟨⟨.FREE, PLAN_LIMITS .FREE, ⟨10, 0⟩, false⟩, seededStore 8, rfl, rfl,
    c8_usage_can_add_more.2.2 8 (.ok []) 0 freshStore
      ⟨.FREE, PLAN_LIMITS .FREE, ⟨10, 0⟩, false⟩ (seededStore 8) rfl rfl⟩⟩

/-! ## C9 -/

/-- C9 counterexample: a request presenting an internal token but no
Authorization header is NOT authenticated by the internal stage on the
tenant-facing pipeline — only `clerkAuth` is mounted on `/api/*`, so
the pipeline rejects it with 401 even though `internalAuth` itself
would accept that very token. -/
theorem c9_counterexample :
    apiAuth (some tIssuer) verifyAlwaysFail reqInternalOnly =
      .response 401 msgMissingAuthHeader ∧
    internalAuth (some tSecret) 100 reqInternalOnly.xInternalToken =
      .next ⟨tUser, some tOrg, none⟩ := ⟨by decide, by decide⟩

/-- C9 (amended): tenant-facing `/api/*` routes run exactly one
authentication stage, namely the external-token stage; any request
without a bearer Authorization header — including one presenting only
an internal token — is rejected 401 by that stage, and `internalAuth`
is never consulted on these routes. -/
theorem c9_single_stage_clerk_only :
    ∀ iss verify (req : AppRequest),
      apiAuth iss verify req = clerkAuth iss verify req.authorization ∧
      (bearerHeaderOk req.authorization = false →
        apiAuth iss verify req = .response 401 msgMissingAuthHeader) := by
  intro iss verify req
  refine ⟨rfl, fun hb => ?_⟩
  simp [apiAuth, clerkAuth, hb]

/-- Witness for C9 (amended): a credential-less request is rejected by
the external stage. -/
theorem c9_witness :
    apiAuth (some tIssuer) verifyAlwaysFail reqNoCreds =
      .response 401 msgMissingAuthHeader :=
  (c9_single_stage_clerk_only (some tIssuer) verifyAlwaysFail reqNoCreds).2
    (by decide)

end Villmas
